import Mathlib

/-!
Verification of the device-bound TOTP service.

The development shallowly embeds the Python sources of the repository:

* `src/otp.py` — the standalone `Server` and `Client` classes (namespaces
  `Server` and `Client` below);
* `src/app/otp_service.py` — `EnterpriseOTPService` (namespace
  `EnterpriseOTPService`), with the database models of
  `src/app/database.py` embedded as the structures `Device`, `AuditLog`
  and `DB`, and the configuration defaults of `src/app/config.py` as the
  namespace `settings`.

Bytes are lists of naturals below 256; machine words are naturals reduced
modulo `2 ^ 32`.  SHA-1, SHA-256 and HMAC are implemented executably so
that every claim can be evaluated on concrete inputs.  Fallible Python
operations (`struct.pack` on a negative or oversized value, `struct.unpack`
on a short buffer, and the verification flow that catches exceptions) are
embedded in the `Except String` monad.

Database state: a `DB` value is the committed content of the relational
store.  The SQLAlchemy session of one service call (`get_db` yields a
session that is closed in a `finally` block; `SessionLocal` is configured
with `autoflush=False`) buffers `db.add` calls and object mutations until
`db.commit()`; rows added without a commit are discarded when the session
closes, and `db.rollback()` discards them as well.  Each service method is
therefore embedded as a function from the committed `DB` to the result
paired with the committed `DB` after the call.
-/

set_option maxRecDepth 100000

deriving instance DecidableEq for Except

namespace Bytes

/-- One 32-bit word as four big-endian bytes. -/
def w32bytes (w : Nat) : List Nat :=
  [w / 16777216 % 256, w / 65536 % 256, w / 256 % 256, w % 256]

/-- A natural number as eight big-endian bytes (used by `struct.pack(">Q", t)`
and by the 64-bit length field of the SHA padding). -/
def u64be (n : Nat) : List Nat :=
  [n / 72057594037927936 % 256, n / 281474976710656 % 256,
   n / 1099511627776 % 256, n / 4294967296 % 256,
   n / 16777216 % 256, n / 65536 % 256, n / 256 % 256, n % 256]

/-- UTF-8 bytes of one character (mirrors Python `str.encode()`). -/
def utf8Char (c : Nat) : List Nat :=
  if c < 128 then [c]
  else if c < 2048 then [192 + c / 64, 128 + c % 64]
  else if c < 65536 then [224 + c / 4096, 128 + c / 64 % 64, 128 + c % 64]
  else [240 + c / 262144, 128 + c / 4096 % 64, 128 + c / 64 % 64, 128 + c % 64]

/-- UTF-8 encoding of a string as a list of bytes. -/
def utf8 (s : String) : List Nat :=
  (s.data.map (fun ch => utf8Char ch.toNat)).flatten

/-- Group a byte list into 32-bit big-endian words (fuel-structural so that
the kernel can evaluate it). -/
def bytesToWords : Nat → List Nat → List Nat
  | _, [] => []
  | 0, _ => []
  | fuel + 1, b0 :: b1 :: b2 :: b3 :: rest =>
      (b0 * 16777216 + b1 * 65536 + b2 * 256 + b3) :: bytesToWords fuel rest
  | _ + 1, _ => []

/-- Split a byte list into 64-byte blocks. -/
def blocks64 : Nat → List Nat → List (List Nat)
  | _, [] => []
  | 0, _ => []
  | fuel + 1, l => l.take 64 :: blocks64 fuel (l.drop 64)

/-- Left rotation of a 32-bit word. -/
def rotl (n w : Nat) : Nat :=
  (w <<< n) % 4294967296 ||| (w >>> (32 - n))

/-- Right rotation of a 32-bit word. -/
def rotr (n w : Nat) : Nat :=
  (w >>> n) ||| ((w <<< (32 - n)) % 4294967296)

/-- Merkle-Damgard padding shared by SHA-1 and SHA-256: append `0x80`, then
zeros up to 56 mod 64, then the bit length as eight big-endian bytes. -/
def shaPad (msg : List Nat) : List Nat :=
  let zeros := (120 - (msg.length + 1) % 64) % 64
  msg ++ 128 :: List.replicate zeros 0 ++ u64be (msg.length * 8)

end Bytes

namespace SHA1

open Bytes

/-- The five 32-bit chaining words. -/
structure St where
  a : Nat
  b : Nat
  c : Nat
  d : Nat
  e : Nat

/-- Extend the 16 message words to 80; `acc` holds the words produced so
far, newest first. -/
def extendRev : Nat → List Nat → List Nat
  | 0, acc => acc
  | fuel + 1, acc =>
      extendRev fuel
        (rotl 1 (acc.getD 2 0 ^^^ acc.getD 7 0 ^^^ acc.getD 13 0 ^^^ acc.getD 15 0) :: acc)

/-- The 80-word message schedule of one block. -/
def schedule (blk : List Nat) : List Nat :=
  (extendRev 64 (bytesToWords 16 blk).reverse).reverse

/-- Round function for round `t`. -/
def f (t b c d : Nat) : Nat :=
  if t < 20 then b &&& c ||| (b ^^^ 4294967295) &&& d
  else if t < 40 then b ^^^ c ^^^ d
  else if t < 60 then b &&& c ||| b &&& d ||| c &&& d
  else b ^^^ c ^^^ d

/-- Round constant for round `t`. -/
def k (t : Nat) : Nat :=
  if t < 20 then 1518500249
  else if t < 40 then 1859775393
  else if t < 60 then 2400959708
  else 3395469782

/-- The 80 compression rounds over the scheduled words. -/
def rounds : List Nat → Nat → St → St
  | [], _, st => st
  | w :: ws, t, st =>
      rounds ws (t + 1)
        { a := (rotl 5 st.a + f t st.b st.c st.d + st.e + k t + w) % 4294967296
          b := st.a
          c := rotl 30 st.b
          d := st.c
          e := st.d }

/-- Process one 64-byte block. -/
def block (h : St) (blk : List Nat) : St :=
  let r := rounds (schedule blk) 0 h
  { a := (h.a + r.a) % 4294967296
    b := (h.b + r.b) % 4294967296
    c := (h.c + r.c) % 4294967296
    d := (h.d + r.d) % 4294967296
    e := (h.e + r.e) % 4294967296 }

def init : St :=
  { a := 1732584193, b := 4023233417, c := 2562383102, d := 271733878, e := 3285377520 }

def processBlocks : List (List Nat) → St → St
  | [], h => h
  | blk :: rest, h => processBlocks rest (block h blk)

/-- SHA-1 digest (20 bytes) of a byte list. -/
def sha1 (msg : List Nat) : List Nat :=
  let p := shaPad msg
  let h := processBlocks (blocks64 (p.length + 1) p) init
  w32bytes h.a ++ w32bytes h.b ++ w32bytes h.c ++ w32bytes h.d ++ w32bytes h.e

end SHA1

namespace SHA256

open Bytes

/-- The eight 32-bit chaining words. -/
structure St where
  a : Nat
  b : Nat
  c : Nat
  d : Nat
  e : Nat
  f : Nat
  g : Nat
  h : Nat

/-- The 64 round constants. -/
def kTable : List Nat :=
  [1116352408, 1899447441, 3049323471, 3921009573, 961987163, 1508970993,
   2453635748, 2870763221, 3624381080, 310598401, 607225278, 1426881987,
   1925078388, 2162078206, 2614888103, 3248222580, 3835390401, 4022224774,
   264347078, 604807628, 770255983, 1249150122, 1555081692, 1996064986,
   2554220882, 2821834349, 2952996808, 3210313671, 3336571891, 3584528711,
   113926993, 338241895, 666307205, 773529912, 1294757372, 1396182291,
   1695183700, 1986661051, 2177026350, 2456956037, 2730485921, 2820302411,
   3259730800, 3345764771, 3516065817, 3600352804, 4094571909, 275423344,
   430227734, 506948616, 659060556, 883997877, 958139571, 1322822218,
   1537002063, 1747873779, 1955562222, 2024104815, 2227730452, 2361852424,
   2428436474, 2756734187, 3204031479, 3329325298]

/-- Extend the 16 message words to 64; `acc` holds the words produced so
far, newest first. -/
def extendRev : Nat → List Nat → List Nat
  | 0, acc => acc
  | fuel + 1, acc =>
      let w15 := acc.getD 14 0
      let w2 := acc.getD 1 0
      let s0 := rotr 7 w15 ^^^ rotr 18 w15 ^^^ (w15 >>> 3)
      let s1 := rotr 17 w2 ^^^ rotr 19 w2 ^^^ (w2 >>> 10)
      extendRev fuel ((acc.getD 15 0 + s0 + acc.getD 6 0 + s1) % 4294967296 :: acc)

/-- The 64-word message schedule of one block. -/
def schedule (blk : List Nat) : List Nat :=
  (extendRev 48 (bytesToWords 16 blk).reverse).reverse

/-- The 64 compression rounds over the scheduled words and round constants. -/
def rounds : List Nat → List Nat → St → St
  | [], _, st => st
  | _, [], st => st
  | w :: ws, kc :: ks, st =>
      let s1 := rotr 6 st.e ^^^ rotr 11 st.e ^^^ rotr 25 st.e
      let ch := st.e &&& st.f ^^^ (st.e ^^^ 4294967295) &&& st.g
      let t1 := (st.h + s1 + ch + kc + w) % 4294967296
      let s0 := rotr 2 st.a ^^^ rotr 13 st.a ^^^ rotr 22 st.a
      let maj := st.a &&& st.b ^^^ st.a &&& st.c ^^^ st.b &&& st.c
      let t2 := (s0 + maj) % 4294967296
      rounds ws ks
        { a := (t1 + t2) % 4294967296
          b := st.a
          c := st.b
          d := st.c
          e := (st.d + t1) % 4294967296
          f := st.e
          g := st.f
          h := st.g }

/-- Process one 64-byte block. -/
def block (h0 : St) (blk : List Nat) : St :=
  let r := rounds (schedule blk) kTable h0
  { a := (h0.a + r.a) % 4294967296
    b := (h0.b + r.b) % 4294967296
    c := (h0.c + r.c) % 4294967296
    d := (h0.d + r.d) % 4294967296
    e := (h0.e + r.e) % 4294967296
    f := (h0.f + r.f) % 4294967296
    g := (h0.g + r.g) % 4294967296
    h := (h0.h + r.h) % 4294967296 }

def init : St :=
  { a := 1779033703, b := 3144134277, c := 1013904242, d := 2773480762,
    e := 1359893119, f := 2600822924, g := 528734635, h := 1541459225 }

def processBlocks : List (List Nat) → St → St
  | [], h => h
  | blk :: rest, h => processBlocks rest (block h blk)

/-- SHA-256 digest (32 bytes) of a byte list. -/
def sha256 (msg : List Nat) : List Nat :=
  let p := shaPad msg
  let h := processBlocks (blocks64 (p.length + 1) p) init
  w32bytes h.a ++ w32bytes h.b ++ w32bytes h.c ++ w32bytes h.d ++
  w32bytes h.e ++ w32bytes h.f ++ w32bytes h.g ++ w32bytes h.h

end SHA256

namespace HMAC

open Bytes

/-- HMAC with a 64-byte block size over the hash function `H`
(mirrors Python `hmac.new(key, msg, H)`). -/
def hmac (H : List Nat → List Nat) (key msg : List Nat) : List Nat :=
  let key1 := if key.length > 64 then H key else key
  let k0 := key1 ++ List.replicate (64 - key1.length) 0
  H ((k0.map (fun b => b ^^^ 92)) ++ H ((k0.map (fun b => b ^^^ 54)) ++ msg))

def hmacSha1 (key msg : List Nat) : List Nat := hmac SHA1.sha1 key msg

def hmacSha256 (key msg : List Nat) : List Nat := hmac SHA256.sha256 key msg

end HMAC

/-- Python `struct.pack(">Q", t)`: eight big-endian bytes of `t`, raising
`struct.error` when `t` is negative or does not fit in 64 bits.  The sources
call it on `time_step`, which is a Python `int` and may be negative. -/
def pack_uint64_be (t : Int) : Except String (List Nat) :=
  if 0 ≤ t ∧ t < 18446744073709551616 then .ok (Bytes.u64be t.toNat)
  else .error "struct.error: argument out of range"

/-- Python `struct.unpack(">I", b)[0]`: a 4-byte buffer read as a big-endian
unsigned 32-bit integer, raising `struct.error` on any other buffer length. -/
def unpack_uint32_be : List Nat → Except String Nat
  | [b0, b1, b2, b3] => .ok (b0 * 16777216 + b1 * 65536 + b2 * 256 + b3)
  | _ => .error "struct.error: unpack requires a buffer of 4 bytes"

/-! Embedding of `src/otp.py`.  `Server.verify_otp` reads the clock; the
current Unix time in whole seconds is passed explicitly as `now`. -/

namespace Server

/-- `Server.generate_derived_key` (src/otp.py lines 13-15): derived key
unique to the device, `hmac.new(master_secret, device_id, sha256)`. -/
def generate_derived_key (master_secret device_id : List Nat) : List Nat :=
  HMAC.hmacSha256 master_secret device_id

/-- `Server._generate_otp` (src/otp.py lines 29-39): pack the time step as
eight big-endian bytes, HMAC-SHA1 with the derived key, dynamic truncation,
clear the sign bit, reduce modulo `10 ^ digits`.  The same body appears as
`EnterpriseOTPService._generate_otp` (src/app/otp_service.py lines 137-148)
with `digits = settings.otp_digits`. -/
def _generate_otp (secret_key : List Nat) (time_step : Int) (digits : Nat) :
    Except String Nat :=
  match pack_uint64_be time_step with
  | .error e => .error e
  | .ok msg =>
      let hmac_hash := HMAC.hmacSha1 secret_key msg
      let offset := hmac_hash.getLastD 0 &&& 15
      let truncated_hash := (hmac_hash.drop offset).take 4
      match unpack_uint32_be truncated_hash with
      | .error e => .error e
      | .ok code_int => .ok ((code_int &&& 2147483647) % 10 ^ digits)

/-- The verification loop `for offset in range(-window, window + 1)` shared
by `Server.verify_otp` (src/otp.py lines 22-27) and
`EnterpriseOTPService._verify_totp` (src/app/otp_service.py lines 130-135):
return `True` on the first time step whose code matches, `False` after the
loop; an exception from `_generate_otp` propagates. -/
def verify_window (secret_key : List Nat) (otp : Nat) (digits : Nat)
    (current_time_step : Int) : List Int → Except String Bool
  | [] => .ok false
  | o :: rest =>
      match _generate_otp secret_key (current_time_step + o) digits with
      | .error e => .error e
      | .ok c => if c = otp then .ok true else
          verify_window secret_key otp digits current_time_step rest

/-- The offsets visited by `range(-window, window + 1)`, in loop order. -/
def range_offsets (window : Nat) : List Int :=
  (List.range (2 * window + 1)).map (fun (i : Nat) => (i : Int) - (window : Int))

/-- `Server.verify_otp` (src/otp.py lines 17-27): regenerate the derived
key, then scan the tolerance window around `int(now // interval)`. -/
def verify_otp (master_secret device_id : List Nat) (otp : Nat) (now : Nat)
    (digits interval window : Nat) : Except String Bool :=
  verify_window (generate_derived_key master_secret device_id) otp digits
    ((now / interval : Nat) : Int) (range_offsets window)

end Server

namespace Client

/-- `Client.generate_otp` (src/otp.py lines 48-55): the code at the current
time step `int(now // interval)`; the body is the same dynamic-truncation
computation as `Server._generate_otp`. -/
def generate_otp (derived_key : List Nat) (now : Nat)
    (digits interval : Nat) : Except String Nat :=
  Server._generate_otp derived_key ((now / interval : Nat) : Int) digits

end Client

namespace TOTPEngine

/-- Modelled from the spec (section 4.2 `code_at`): keyed hash over the
8-byte big-endian encoding of the time step; the low nibble of the final
digest byte is a byte offset; four bytes from that offset are read as a
big-endian unsigned 32-bit integer, masked with `0x7FFFFFFF` and reduced
modulo `10 ^ digits`.  Stated over a `uint64` time step as in the spec;
used only to compare against the embedded source code. -/
def code_at (secret : List Nat) (time_step : Nat) (digits : Nat) : Nat :=
  let digest := HMAC.hmacSha1 secret (Bytes.u64be time_step)
  let offset := digest.getLastD 0 &&& 15
  let p := digest.getD offset 0 * 16777216 + digest.getD (offset + 1) 0 * 65536 +
    digest.getD (offset + 2) 0 * 256 + digest.getD (offset + 3) 0
  (p &&& 2147483647) % 10 ^ digits

/-- Modelled from the spec (section 4.2): `floor(now / interval_seconds)`. -/
def current_time_step (now interval_seconds : Nat) : Nat :=
  now / interval_seconds

end TOTPEngine

/-! Configuration defaults of `src/app/config.py` (`Settings`): the values
taken when the corresponding environment variables are unset. -/

namespace settings

def otp_digits : Nat := 6

def otp_interval : Nat := 30

def otp_window : Nat := 1

end settings

namespace EnterpriseOTPService

/-- Row of the `devices` table (src/app/database.py lines 13-23).
Timestamps are Unix seconds. -/
structure Device where
  device_id : String
  user_id : String
  derived_key_hash : String
  is_active : Bool
  created_at : Nat
  last_used : Option Nat
  usage_count : Nat
  deactivated_at : Option Nat
deriving DecidableEq

/-- Row of the `audit_logs` table (src/app/database.py lines 25-35).  The
unused `user_agent` and `additional_data` columns are omitted. -/
structure AuditLog where
  device_id : String
  action : String
  success : Bool
  timestamp : Nat
  ip_address : String
deriving DecidableEq

/-- The committed content of the store: the two tables. -/
structure DB where
  devices : List Device
  audit : List AuditLog
deriving DecidableEq

/-- Result dictionary of `register_device`: either the derived key (the
source base64-encodes it for transport; the raw bytes are kept here) or an
error message. -/
inductive RegisterResult
  | ok (derived_key : List Nat)
  | error (msg : String)
deriving DecidableEq

/-- Result dictionary of `verify_otp`: the `valid` flag and the optional
`error` entry. -/
structure VerifyResult where
  valid : Bool
  error : Option String
deriving DecidableEq

/-- Result dictionary of `deactivate_device`. -/
inductive DeactivateResult
  | ok (msg : String)
  | error (msg : String)
deriving DecidableEq

/-- Lowercase hexadecimal digit. -/
def hexChar (n : Nat) : Char :=
  if n < 10 then Char.ofNat (48 + n) else Char.ofNat (87 + n)

/-- Python `hashlib.sha256(b).hexdigest()` given the digest bytes `b`. -/
def hexdigest (bytes : List Nat) : String :=
  String.mk ((bytes.map (fun b => [hexChar (b / 16), hexChar (b % 16)])).flatten)

/-- `EnterpriseOTPService.generate_derived_key` (src/app/otp_service.py
lines 22-28): `hmac.new(master_secret, device_id.encode(), sha256)`. -/
def generate_derived_key (master_secret : List Nat) (device_id : String) :
    List Nat :=
  HMAC.hmacSha256 master_secret (Bytes.utf8 device_id)

/-- `EnterpriseOTPService._generate_otp` (src/app/otp_service.py lines
137-148): the same body as `Server._generate_otp` with
`digits = settings.otp_digits`. -/
def _generate_otp (secret_key : List Nat) (time_step : Int) :
    Except String Nat :=
  Server._generate_otp secret_key time_step settings.otp_digits

/-- `EnterpriseOTPService._verify_totp` (src/app/otp_service.py lines
126-135): the tolerance-window loop at the configured digits, interval and
window, around `current_time_step = int(now // settings.otp_interval)`. -/
def _verify_totp (secret_key : List Nat) (otp : Nat) (now : Nat) :
    Except String Bool :=
  Server.verify_window secret_key otp settings.otp_digits
    ((now / settings.otp_interval : Nat) : Int)
    (Server.range_offsets settings.otp_window)

/-- `EnterpriseOTPService._log_verification` (src/app/otp_service.py lines
150-159) builds this row and passes it to `db.add`; the row reaches the
committed store only if the caller later commits. -/
def _log_verification (device_id action : String) (success : Bool)
    (timestamp : Nat) (ip_address : String) : AuditLog :=
  { device_id := device_id, action := action, success := success,
    timestamp := timestamp, ip_address := ip_address }

/-- The rate-limit query of `verify_otp` (src/app/otp_service.py lines
91-96): committed audit rows of this device with action
`OTP_VERIFICATION` and timestamp strictly newer than five minutes ago.
The session has `autoflush=False`, so the query sees committed rows only. -/
def recent_attempts (db : DB) (device_id : String) (now : Nat) : Nat :=
  (db.audit.filter (fun a =>
    a.device_id == device_id && a.action == "OTP_VERIFICATION" &&
    decide (now - 300 < a.timestamp))).length

/-- `EnterpriseOTPService.verify_otp` (src/app/otp_service.py lines 77-124).
Paths, in source order: no active device found, add an `INVALID_DEVICE`
audit row to the session and return without committing (the row is dropped
when the session closes); more than ten recent attempts, add a
`RATE_LIMITED` row to the session and return without committing; an
exception from `_verify_totp` (negative or oversized time step), roll back
and return the generic failure; otherwise update the device on success,
add the `OTP_VERIFICATION` row and commit both. -/
def verify_otp (master_secret : List Nat) (db : DB) (device_id : String)
    (otp : Nat) (now : Nat) (ip_address : String) : VerifyResult × DB :=
  match db.devices.find? (fun d => d.device_id == device_id && d.is_active) with
  | none => ({ valid := false, error := some "Device not found or inactive" }, db)
  | some _ =>
      if recent_attempts db device_id now > 10 then
        ({ valid := false, error := some "Rate limit exceeded" }, db)
      else
        let derived_key := generate_derived_key master_secret device_id
        match _verify_totp derived_key otp now with
        | .error _ => ({ valid := false, error := some "Verification failed" }, db)
        | .ok is_valid =>
            let devices :=
              if is_valid then
                db.devices.map (fun d =>
                  if d.device_id == device_id then
                    { d with last_used := some now, usage_count := d.usage_count + 1 }
                  else d)
              else db.devices
            ({ valid := is_valid, error := none },
             { devices := devices,
               audit := db.audit ++
                 [_log_verification device_id "OTP_VERIFICATION" is_valid now ip_address] })

/-- `EnterpriseOTPService.register_device` (src/app/otp_service.py lines
30-75): reject when any row with this `device_id` exists (active or not);
otherwise commit the new device row together with a `DEVICE_REGISTERED`
audit row and return the derived key. -/
def register_device (master_secret : List Nat) (db : DB)
    (device_id user_id : String) (now : Nat) : RegisterResult × DB :=
  match db.devices.find? (fun d => d.device_id == device_id) with
  | some _ => (.error "Device already registered", db)
  | none =>
      let derived_key := generate_derived_key master_secret device_id
      let device : Device :=
        { device_id := device_id, user_id := user_id,
          derived_key_hash := hexdigest (SHA256.sha256 derived_key),
          is_active := true, created_at := now, last_used := none,
          usage_count := 0, deactivated_at := none }
      (.ok derived_key,
       { devices := db.devices ++ [device],
         audit := db.audit ++
           [{ device_id := device_id, action := "DEVICE_REGISTERED",
              success := true, timestamp := now, ip_address := "unknown" }] })

/-- `EnterpriseOTPService.deactivate_device` (src/app/otp_service.py lines
161-188): look the device up regardless of state; set `is_active = False`
and `deactivated_at = now` (also when the device is already inactive) and
commit together with a `DEVICE_DEACTIVATED` audit row. -/
def deactivate_device (db : DB) (device_id : String) (now : Nat) :
    DeactivateResult × DB :=
  match db.devices.find? (fun d => d.device_id == device_id) with
  | none => (.error "Device not found", db)
  | some _ =>
      (.ok "Device deactivated successfully",
       { devices := db.devices.map (fun d =>
           if d.device_id == device_id then
             { d with is_active := false, deactivated_at := some now }
           else d),
         audit := db.audit ++
           [{ device_id := device_id, action := "DEVICE_DEACTIVATED",
              success := true, timestamp := now, ip_address := "system" }] })

end EnterpriseOTPService

/-! Helper lemmas. -/

lemma sha1_length (m : List Nat) : (SHA1.sha1 m).length = 20 := by
  simp [SHA1.sha1, Bytes.w32bytes]

lemma hmacSha1_length (key msg : List Nat) :
    (HMAC.hmacSha1 key msg).length = 20 := by
  simp only [HMAC.hmacSha1, HMAC.hmac]
  exact sha1_length _

lemma getD_drop (l : List Nat) (off i : Nat) :
    (l.drop off).getD i 0 = l.getD (off + i) 0 := by
  simp [List.getD_eq_getElem?_getD, List.getElem?_drop]

lemma unpack_slice (l : List Nat) (off : Nat) (h : off + 4 ≤ l.length) :
    unpack_uint32_be ((l.drop off).take 4) =
      .ok (l.getD off 0 * 16777216 + l.getD (off + 1) 0 * 65536 +
        l.getD (off + 2) 0 * 256 + l.getD (off + 3) 0) := by
  have hlen : (l.drop off).length = l.length - off := List.length_drop off l
  rcases e : l.drop off with _ | ⟨a, _ | ⟨b, _ | ⟨c, _ | ⟨d, t⟩⟩⟩⟩ <;>
    rw [e] at hlen <;> simp at hlen <;> try omega
  have ha : l.getD (off + 0) 0 = a := by rw [← getD_drop, e]; rfl
  have hb : l.getD (off + 1) 0 = b := by rw [← getD_drop, e]; rfl
  have hc : l.getD (off + 2) 0 = c := by rw [← getD_drop, e]; rfl
  have hd : l.getD (off + 3) 0 = d := by rw [← getD_drop, e]; rfl
  rw [← ha, ← hb, ← hc, ← hd] at *
  simp [unpack_uint32_be]

lemma generate_otp_eq_code_at (secret : List Nat) (t : Int) (digits : Nat)
    (h0 : 0 ≤ t) (h1 : t < 18446744073709551616) :
    Server._generate_otp secret t digits =
      .ok (TOTPEngine.code_at secret t.toNat digits) := by
  have hpack : pack_uint64_be t = .ok (Bytes.u64be t.toNat) := by
    simp [pack_uint64_be, h0, h1]
  have hoff : ((HMAC.hmacSha1 secret (Bytes.u64be t.toNat)).getLastD 0 &&& 15) + 4 ≤
      (HMAC.hmacSha1 secret (Bytes.u64be t.toNat)).length := by
    rw [hmacSha1_length]
    have := Nat.and_le_right
      (n := (HMAC.hmacSha1 secret (Bytes.u64be t.toNat)).getLastD 0) (m := 15)
    omega
  simp only [Server._generate_otp, hpack, TOTPEngine.code_at,
    unpack_slice _ _ hoff]

lemma mem_range_offsets (window : Nat) (o : Int) :
    o ∈ Server.range_offsets window ↔ -(window : Int) ≤ o ∧ o ≤ window := by
  constructor
  · intro h
    rw [Server.range_offsets] at h
    obtain ⟨i, hi, hoe⟩ := List.mem_map.mp h
    rw [List.mem_range] at hi
    omega
  · intro h
    rw [Server.range_offsets]
    exact List.mem_map.mpr ⟨(o + window).toNat, List.mem_range.mpr (by omega), by omega⟩

lemma verify_window_eq_any (secret : List Nat) (otp digits : Nat) (cts : Int) :
    ∀ offsets : List Int,
      (∀ o ∈ offsets, 0 ≤ cts + o ∧ cts + o < 18446744073709551616) →
      Server.verify_window secret otp digits cts offsets =
        .ok (offsets.any (fun o =>
          decide (Server._generate_otp secret (cts + o) digits = .ok otp)))
  | [], _ => by simp [Server.verify_window]
  | o :: rest, hsafe => by
      obtain ⟨h0, h1⟩ := hsafe o (List.mem_cons_self o rest)
      have hgen := generate_otp_eq_code_at secret (cts + o) digits h0 h1
      have ih := verify_window_eq_any secret otp digits cts rest
        (fun x hx => hsafe x (List.mem_cons_of_mem o hx))
      by_cases hc : TOTPEngine.code_at secret (cts + o).toNat digits = otp
      · simp [Server.verify_window, hgen, hc]
      · simp [Server.verify_window, hgen, hc, ih]

lemma verify_window_ok_true_iff (secret : List Nat) (otp digits : Nat)
    (cts : Int) (offsets : List Int)
    (hsafe : ∀ o ∈ offsets, 0 ≤ cts + o ∧ cts + o < 18446744073709551616) :
    Server.verify_window secret otp digits cts offsets = .ok true ↔
      ∃ o ∈ offsets, Server._generate_otp secret (cts + o) digits = .ok otp := by
  rw [verify_window_eq_any secret otp digits cts offsets hsafe]
  simp

lemma verify_window_ok_false_iff (secret : List Nat) (otp digits : Nat)
    (cts : Int) (offsets : List Int)
    (hsafe : ∀ o ∈ offsets, 0 ≤ cts + o ∧ cts + o < 18446744073709551616) :
    Server.verify_window secret otp digits cts offsets = .ok false ↔
      ∀ o ∈ offsets, Server._generate_otp secret (cts + o) digits ≠ .ok otp := by
  rw [verify_window_eq_any secret otp digits cts offsets hsafe]
  simp

/-! Claim theorems. -/

/-- C1: for every secret and `uint64` time step, the generated OTP equals
the standard dynamic-truncation value of the spec (`TOTPEngine.code_at`):
HMAC-SHA1 over the 8-byte big-endian encoding of the time step keyed by the
secret, offset from the low nibble of the last digest byte, four bytes from
that offset read as a big-endian unsigned 32-bit integer, masked with
`0x7FFFFFFF`, reduced modulo `10 ^ digits`; the result always lies in
`[0, 10 ^ digits)`.  Both `Server._generate_otp` (src/otp.py) and
`EnterpriseOTPService._generate_otp` (src/app/otp_service.py) are covered;
determinism per `(secret, time_step)` holds because the embedded functions
are pure. -/
theorem C1_generate_otp_dynamic_truncation (secret : List Nat)
    (t digits : Nat) (h : t < 18446744073709551616) :
    Server._generate_otp secret (t : Int) digits =
        .ok (TOTPEngine.code_at secret t digits)
      ∧ EnterpriseOTPService._generate_otp secret (t : Int) =
        .ok (TOTPEngine.code_at secret t settings.otp_digits)
      ∧ TOTPEngine.code_at secret t digits < 10 ^ digits := by
  have h1 := generate_otp_eq_code_at secret (t : Int) digits
    (Int.natCast_nonneg t) (by exact_mod_cast h)
  have h2 := generate_otp_eq_code_at secret (t : Int) settings.otp_digits
    (Int.natCast_nonneg t) (by exact_mod_cast h)
  rw [Int.toNat_natCast] at h1 h2
  refine ⟨h1, ?_, ?_⟩
  · rw [EnterpriseOTPService._generate_otp]
    exact h2
  · exact Nat.mod_lt _ (Nat.pos_pow_of_pos digits (by norm_num))

/-- Witness for C1: concrete secret `b"k"`, time step 0, six digits; the
code evaluates to 153980. -/
theorem C1_generate_otp_dynamic_truncation_witness :
    (0 : Nat) < 18446744073709551616
      ∧ Server._generate_otp [107] ((0 : Nat) : Int) 6 =
          .ok (TOTPEngine.code_at [107] 0 6)
      ∧ TOTPEngine.code_at [107] 0 6 = 153980 :=
  ⟨by decide, (C1_generate_otp_dynamic_truncation [107] 0 6 (by decide)).1,
   by rfl⟩

/-- C2 (amended): provided the tolerance window stays inside the `uint64`
packing domain (`window ≤ floor(now / interval)` and
`floor(now / interval) + window < 2 ^ 64`), TOTP verification returns true
iff the candidate equals the code at `floor(now / interval) + k` for some
`k` in `[-window, +window]`; `EnterpriseOTPService._verify_totp` is exactly
this loop at the configured digits, interval and window.  The embedding is
a pure function of `(secret, candidate, now)`, matching the no-side-effects
part of the claim.  Outside the stated domain the source raises instead of
returning a boolean (see the counterexample and C10). -/
theorem C2_verify_iff_code_in_window (secret : List Nat) (otp : Nat)
    (now digits interval window : Nat) (_hint : 0 < interval)
    (hlo : window ≤ now / interval)
    (hhi : now / interval + window < 18446744073709551616) :
    (Server.verify_window secret otp digits ((now / interval : Nat) : Int)
        (Server.range_offsets window) = .ok true ↔
      ∃ k : Int, -(window : Int) ≤ k ∧ k ≤ window ∧
        Server._generate_otp secret (((now / interval : Nat) : Int) + k) digits
          = .ok otp)
    ∧ EnterpriseOTPService._verify_totp secret otp now =
        Server.verify_window secret otp settings.otp_digits
          ((now / settings.otp_interval : Nat) : Int)
          (Server.range_offsets settings.otp_window) := by
  have hsafe : ∀ o ∈ Server.range_offsets window,
      0 ≤ ((now / interval : Nat) : Int) + o ∧
      ((now / interval : Nat) : Int) + o < 18446744073709551616 := by
    intro o ho
    rw [mem_range_offsets] at ho
    constructor <;> omega
  constructor
  · rw [verify_window_ok_true_iff _ _ _ _ _ hsafe]
    constructor
    · rintro ⟨o, ho, hgen⟩
      rw [mem_range_offsets] at ho
      exact ⟨o, ho.1, ho.2, hgen⟩
    · rintro ⟨k, h1, h2, hgen⟩
      exact ⟨k, (mem_range_offsets window k).mpr ⟨h1, h2⟩, hgen⟩
  · rfl

/-- Witness for C2 at `now = 90`, six digits, interval 30, window 1. -/
theorem C2_verify_iff_code_in_window_witness :
    (Server.verify_window [107] 93276 6 (((90 : Nat) / 30 : Nat) : Int)
        (Server.range_offsets 1) = .ok true ↔
      ∃ k : Int, -(1 : Int) ≤ k ∧ k ≤ 1 ∧
        Server._generate_otp [107] ((((90 : Nat) / 30 : Nat) : Int) + k) 6
          = .ok 93276)
    ∧ EnterpriseOTPService._verify_totp [107] 93276 90 =
        Server.verify_window [107] 93276 6 (((90 : Nat) / 30 : Nat) : Int)
          (Server.range_offsets 1) :=
  C2_verify_iff_code_in_window [107] 93276 90 6 30 1 (by decide) (by decide)
    (by decide)

/-- C2 fails as stated: at `now = 0` with the default window 1 the loop
packs the time step `-1`, which raises, so verification returns an error
even though the candidate equals the code at step `0 + 0`; the claimed
equivalence is false at this input. -/
theorem C2_counterexample :
    ¬ (EnterpriseOTPService._verify_totp [107] 153980 0 = .ok true ↔
        ∃ k : Int, -(1 : Int) ≤ k ∧ k ≤ 1 ∧
          Server._generate_otp [107] ((((0 : Nat) / 30 : Nat) : Int) + k) 6
            = .ok 153980) := by
  intro h
  have hmem := h.mpr ⟨0, by decide, by decide, by rfl⟩
  exact absurd hmem (by decide)

lemma find?_imp_none {α : Type} (p q : α → Bool) (l : List α)
    (hpq : ∀ a, q a = true → p a = true) (h : l.find? p = none) :
    l.find? q = none := by
  rw [List.find?_eq_none] at *
  intro x hx hq
  exact h x hx (hpq x hq)

lemma find?_active_map_deactivate (l : List EnterpriseOTPService.Device)
    (id : String) (t : Nat) :
    (l.map (fun d => if d.device_id == id then
        { d with is_active := false, deactivated_at := some t } else d)).find?
      (fun d => d.device_id == id && d.is_active) = none := by
  rw [List.find?_eq_none]
  intro x hx
  obtain ⟨d, hd, rfl⟩ := List.mem_map.mp hx
  by_cases h : d.device_id = id <;> simp [h]

lemma find?_active_deactivate (db : EnterpriseOTPService.DB) (id : String)
    (t : Nat) :
    (EnterpriseOTPService.deactivate_device db id t).2.devices.find?
      (fun d => d.device_id == id && d.is_active) = none := by
  cases hf : db.devices.find? (fun d => d.device_id == id) with
  | none =>
      simp only [EnterpriseOTPService.deactivate_device, hf]
      exact find?_imp_none _ _ _
        (fun a ha => ((Bool.and_eq_true _ _).mp ha).1) hf
  | some d =>
      simp only [EnterpriseOTPService.deactivate_device, hf]
      exact find?_active_map_deactivate db.devices id t

/-- C4: when the committed audit trail holds strictly more than ten
verification-attempt rows (action `OTP_VERIFICATION`, covering both the
successful and the rejected attempts of the spec) for the device inside
the trailing five-minute window, a verification request on an active
device returns the rate-limited outcome with the store unchanged.  The
conclusion holds for every submitted code and every master secret, so the
rejection is decided before the secret is derived and before the TOTP
check, and usage statistics are not touched. -/
theorem C4_rate_limited_before_totp (master_secret : List Nat)
    (db : EnterpriseOTPService.DB) (device_id : String) (otp now : Nat)
    (ip : String) (d : EnterpriseOTPService.Device)
    (hfind : db.devices.find? (fun x => x.device_id == device_id && x.is_active)
      = some d)
    (hcount : 10 < EnterpriseOTPService.recent_attempts db device_id now) :
    EnterpriseOTPService.verify_otp master_secret db device_id otp now ip =
      ({ valid := false, error := some "Rate limit exceeded" }, db) := by
  simp [EnterpriseOTPService.verify_otp, hfind, hcount]

/-- Witness for C4: an active device with eleven committed verification
rows inside the window; the twelfth request is rate limited. -/
theorem C4_rate_limited_before_totp_witness :
    EnterpriseOTPService.verify_otp [77]
      ⟨[⟨"D1", "u1", "", true, 0, none, 0, none⟩],
       List.replicate 11 ⟨"D1", "OTP_VERIFICATION", false, 999, "t"⟩⟩
      "D1" 93276 1000 "t" =
      ({ valid := false, error := some "Rate limit exceeded" },
       ⟨[⟨"D1", "u1", "", true, 0, none, 0, none⟩],
        List.replicate 11 ⟨"D1", "OTP_VERIFICATION", false, 999, "t"⟩⟩) :=
  C4_rate_limited_before_totp [77] _ "D1" 93276 1000 "t"
    ⟨"D1", "u1", "", true, 0, none, 0, none⟩ (by rfl) (by decide)

/-- C6: a verification request against a device that is not found active
(nonexistent or deactivated) returns `valid = false` with the
device-unavailable error, for every submitted code, leaving the store
unchanged; and after any `deactivate_device` call, verification of that
device id always takes this path, never the cryptographic comparison. -/
theorem C6_inactive_or_missing_device_unavailable :
    (∀ (master_secret : List Nat) (db : EnterpriseOTPService.DB)
      (device_id : String) (otp now : Nat) (ip : String),
      db.devices.find? (fun d => d.device_id == device_id && d.is_active) = none →
      EnterpriseOTPService.verify_otp master_secret db device_id otp now ip =
        ({ valid := false, error := some "Device not found or inactive" }, db))
    ∧ (∀ (master_secret : List Nat) (db : EnterpriseOTPService.DB)
      (device_id : String) (otp now nowd : Nat) (ip : String),
      EnterpriseOTPService.verify_otp master_secret
          (EnterpriseOTPService.deactivate_device db device_id nowd).2
          device_id otp now ip =
        ({ valid := false, error := some "Device not found or inactive" },
         (EnterpriseOTPService.deactivate_device db device_id nowd).2)) := by
  constructor
  · intro master_secret db device_id otp now ip hfind
    simp [EnterpriseOTPService.verify_otp, hfind]
  · intro master_secret db device_id otp now nowd ip
    have hf := find?_active_deactivate db device_id nowd
    simp [EnterpriseOTPService.verify_otp, hf]

/-- Witness for C6: an empty store (device never registered), and a store
whose only device was just deactivated; both requests answer with the
device-unavailable outcome even for the cryptographically correct code. -/
theorem C6_inactive_or_missing_device_unavailable_witness :
    (EnterpriseOTPService.verify_otp [77] ⟨[], []⟩ "D1" 93276 90 "t" =
      ({ valid := false, error := some "Device not found or inactive" },
       ⟨[], []⟩))
    ∧ (EnterpriseOTPService.verify_otp [77]
        (EnterpriseOTPService.deactivate_device
          ⟨[⟨"D1", "u1", "", true, 0, none, 0, none⟩], []⟩ "D1" 50).2
        "D1" 93276 90 "t" =
      ({ valid := false, error := some "Device not found or inactive" },
       (EnterpriseOTPService.deactivate_device
          ⟨[⟨"D1", "u1", "", true, 0, none, 0, none⟩], []⟩ "D1" 50).2)) :=
  ⟨C6_inactive_or_missing_device_unavailable.1 [77] ⟨[], []⟩ "D1" 93276 90 "t"
      (by rfl),
   C6_inactive_or_missing_device_unavailable.2 [77]
      ⟨[⟨"D1", "u1", "", true, 0, none, 0, none⟩], []⟩ "D1" 93276 90 50 "t"⟩

/-- C5: registering a fresh device id succeeds and returns the derived
key; the device store then holds exactly one row with that id; a second
registration against that store fails with the already-registered error
and leaves the store unchanged; and in general a registration against any
store holding a row with that id (active or inactive) fails the same way
with no state change. -/
theorem C5_register_twice (master_secret : List Nat)
    (db db2 : EnterpriseOTPService.DB) (device_id uid uid2 : String)
    (now now2 : Nat) (d2 : EnterpriseOTPService.Device)
    (hnone : db.devices.find? (fun d => d.device_id == device_id) = none) :
    (EnterpriseOTPService.register_device master_secret db device_id uid now).1 =
        .ok (EnterpriseOTPService.generate_derived_key master_secret device_id)
    ∧ ((EnterpriseOTPService.register_device master_secret db device_id uid
          now).2.devices.filter (fun d => d.device_id == device_id)).length = 1
    ∧ EnterpriseOTPService.register_device master_secret
        (EnterpriseOTPService.register_device master_secret db device_id uid
          now).2 device_id uid2 now2 =
      (.error "Device already registered",
       (EnterpriseOTPService.register_device master_secret db device_id uid
          now).2)
    ∧ (db2.devices.find? (fun d => d.device_id == device_id) = some d2 →
       EnterpriseOTPService.register_device master_secret db2 device_id uid2
          now2 = (.error "Device already registered", db2)) := by
  have hfilter : db.devices.filter (fun d => d.device_id == device_id) = [] := by
    rw [List.filter_eq_nil_iff]
    exact List.find?_eq_none.mp hnone
  refine ⟨?_, ?_, ?_, ?_⟩
  · simp [EnterpriseOTPService.register_device, hnone]
  · simp [EnterpriseOTPService.register_device, hnone, List.filter_append,
      hfilter]
  · simp [EnterpriseOTPService.register_device, hnone, List.find?_append]
  · intro h2
    simp [EnterpriseOTPService.register_device, h2]

/-- Witness for C5: registering `D1` into an empty store. -/
theorem C5_register_twice_witness :
    (EnterpriseOTPService.register_device [77] ⟨[], []⟩ "D1" "u1" 0).1 =
        .ok (EnterpriseOTPService.generate_derived_key [77] "D1")
    ∧ ((EnterpriseOTPService.register_device [77] ⟨[], []⟩ "D1" "u1"
          0).2.devices.filter (fun d => d.device_id == "D1")).length = 1
    ∧ EnterpriseOTPService.register_device [77]
        (EnterpriseOTPService.register_device [77] ⟨[], []⟩ "D1" "u1" 0).2
        "D1" "u2" 5 =
      (.error "Device already registered",
       (EnterpriseOTPService.register_device [77] ⟨[], []⟩ "D1" "u1" 0).2)
    ∧ ((⟨[⟨"D1", "u1", "", false, 0, none, 0, some 4⟩], []⟩ :
          EnterpriseOTPService.DB).devices.find?
          (fun d => d.device_id == "D1") = some ⟨"D1", "u1", "", false, 0, none, 0, some 4⟩ →
       EnterpriseOTPService.register_device [77]
          ⟨[⟨"D1", "u1", "", false, 0, none, 0, some 4⟩], []⟩ "D1" "u2" 5 =
        (.error "Device already registered",
         ⟨[⟨"D1", "u1", "", false, 0, none, 0, some 4⟩], []⟩)) :=
  C5_register_twice [77] ⟨[], []⟩
    ⟨[⟨"D1", "u1", "", false, 0, none, 0, some 4⟩], []⟩ "D1" "u1" "u2" 0 5
    ⟨"D1", "u1", "", false, 0, none, 0, some 4⟩ (by rfl)

/-- C3 (amended): audit events are durably committed exactly on the paths
that reach `db.commit()`.  Registration commits one `DEVICE_REGISTERED`
row, deactivation commits one `DEVICE_DEACTIVATED` row, and a verification
attempt that reaches the TOTP computation and finishes without an internal
error commits one `OTP_VERIFICATION` row before the call returns.  The
device-unavailable and rate-limited rejections add a session row that is
never committed, and the internal-error path rolls back, so on those three
paths the committed store - including the rate-limiter count - is
unchanged when the orchestrator returns. -/
theorem C3_audit_commit_paths :
    (∀ (master_secret : List Nat) (db : EnterpriseOTPService.DB)
      (id uid : String) (now : Nat),
      db.devices.find? (fun d => d.device_id == id) = none →
      (EnterpriseOTPService.register_device master_secret db id uid now).2.audit
        = db.audit ++ [⟨id, "DEVICE_REGISTERED", true, now, "unknown"⟩])
    ∧ (∀ (db : EnterpriseOTPService.DB) (id : String) (now : Nat)
      (d : EnterpriseOTPService.Device),
      db.devices.find? (fun x => x.device_id == id) = some d →
      (EnterpriseOTPService.deactivate_device db id now).2.audit
        = db.audit ++ [⟨id, "DEVICE_DEACTIVATED", true, now, "system"⟩])
    ∧ (∀ (master_secret : List Nat) (db : EnterpriseOTPService.DB)
      (id : String) (otp now : Nat) (ip : String)
      (d : EnterpriseOTPService.Device) (b : Bool),
      db.devices.find? (fun x => x.device_id == id && x.is_active) = some d →
      EnterpriseOTPService.recent_attempts db id now ≤ 10 →
      EnterpriseOTPService._verify_totp
        (EnterpriseOTPService.generate_derived_key master_secret id) otp now
        = .ok b →
      (EnterpriseOTPService.verify_otp master_secret db id otp now ip).2.audit
        = db.audit ++ [⟨id, "OTP_VERIFICATION", b, now, ip⟩])
    ∧ (∀ (master_secret : List Nat) (db : EnterpriseOTPService.DB)
      (id : String) (otp now : Nat) (ip : String),
      db.devices.find? (fun x => x.device_id == id && x.is_active) = none →
      (EnterpriseOTPService.verify_otp master_secret db id otp now ip).2 = db)
    ∧ (∀ (master_secret : List Nat) (db : EnterpriseOTPService.DB)
      (id : String) (otp now : Nat) (ip : String)
      (d : EnterpriseOTPService.Device),
      db.devices.find? (fun x => x.device_id == id && x.is_active) = some d →
      10 < EnterpriseOTPService.recent_attempts db id now →
      (EnterpriseOTPService.verify_otp master_secret db id otp now ip).2 = db)
    ∧ (∀ (master_secret : List Nat) (db : EnterpriseOTPService.DB)
      (id : String) (otp now : Nat) (ip e : String)
      (d : EnterpriseOTPService.Device),
      db.devices.find? (fun x => x.device_id == id && x.is_active) = some d →
      EnterpriseOTPService.recent_attempts db id now ≤ 10 →
      EnterpriseOTPService._verify_totp
        (EnterpriseOTPService.generate_derived_key master_secret id) otp now
        = .error e →
      (EnterpriseOTPService.verify_otp master_secret db id otp now ip).2 = db) := by
  refine ⟨?_, ?_, ?_, ?_, ?_, ?_⟩
  · intro master_secret db id uid now hnone
    simp [EnterpriseOTPService.register_device, hnone]
  · intro db id now d hsome
    simp [EnterpriseOTPService.deactivate_device, hsome]
  · intro master_secret db id otp now ip d b hsome hcount hv
    have hif : ¬ (10 < EnterpriseOTPService.recent_attempts db id now) :=
      Nat.not_lt.mpr hcount
    simp [EnterpriseOTPService.verify_otp, hsome, hif, hv,
      EnterpriseOTPService._log_verification]
  · intro master_secret db id otp now ip hnone
    simp [EnterpriseOTPService.verify_otp, hnone]
  · intro master_secret db id otp now ip d hsome hcount
    simp [EnterpriseOTPService.verify_otp, hsome, hcount]
  · intro master_secret db id otp now ip e d hsome hcount hv
    have hif : ¬ (10 < EnterpriseOTPService.recent_attempts db id now) :=
      Nat.not_lt.mpr hcount
    simp [EnterpriseOTPService.verify_otp, hsome, hif, hv]

/-- Witness for C3: a registration, a deactivation and a completed
successful verification each commit their audit row; a verification
against an unregistered device leaves the committed store unchanged. -/
theorem C3_audit_commit_paths_witness :
    (EnterpriseOTPService.register_device [77] ⟨[], []⟩ "D1" "u1" 0).2.audit
        = [] ++ [⟨"D1", "DEVICE_REGISTERED", true, 0, "unknown"⟩]
    ∧ (EnterpriseOTPService.deactivate_device
        ⟨[⟨"D1", "u1", "", true, 0, none, 0, none⟩], []⟩ "D1" 50).2.audit
        = [] ++ [⟨"D1", "DEVICE_DEACTIVATED", true, 50, "system"⟩]
    ∧ (EnterpriseOTPService.verify_otp [77]
        ⟨[⟨"D1", "u1", "", true, 0, none, 0, none⟩], []⟩ "D1" 762939 90
        "t").2.audit = [] ++ [⟨"D1", "OTP_VERIFICATION", true, 90, "t"⟩]
    ∧ (EnterpriseOTPService.verify_otp [77] ⟨[], []⟩ "D1" 762939 90 "t").2
        = ⟨[], []⟩ :=
  ⟨C3_audit_commit_paths.1 [77] ⟨[], []⟩ "D1" "u1" 0 (by rfl),
   C3_audit_commit_paths.2.1 ⟨[⟨"D1", "u1", "", true, 0, none, 0, none⟩], []⟩
     "D1" 50 ⟨"D1", "u1", "", true, 0, none, 0, none⟩ (by rfl),
   C3_audit_commit_paths.2.2.1 [77]
     ⟨[⟨"D1", "u1", "", true, 0, none, 0, none⟩], []⟩ "D1" 762939 90 "t"
     ⟨"D1", "u1", "", true, 0, none, 0, none⟩ true (by rfl) (by decide)
     (by rfl),
   C3_audit_commit_paths.2.2.2.1 [77] ⟨[], []⟩ "D1" 762939 90 "t" (by rfl)⟩

/-- C3 fails as stated: a verification attempt against an unregistered
device returns its result while the committed audit trail is still empty -
the `INVALID_DEVICE` session row is never committed, so no audit event is
visible to subsequent reads (including the rate limiter) after the call. -/
theorem C3_counterexample :
    (EnterpriseOTPService.verify_otp [77] ⟨[], []⟩ "D1" 123456 1000 "t").1
        = { valid := false, error := some "Device not found or inactive" }
    ∧ (EnterpriseOTPService.verify_otp [77] ⟨[], []⟩ "D1" 123456 1000
        "t").2.audit = [] :=
  ⟨by rfl, by rfl⟩

/-- C9: `last_used` and `usage_count` change only on a successful
verification: when the call reports `valid = true` the device rows with
the verified id get `last_used = now` and `usage_count` incremented by
exactly one with every other field kept (the record update touches only
those two fields, and rows with other ids are returned unchanged); on
every other outcome (wrong code, unavailable device, rate limited,
internal failure) the device table is returned exactly as it was. -/
theorem C9_usage_updated_only_on_success (master_secret : List Nat)
    (db : EnterpriseOTPService.DB) (device_id : String) (otp now : Nat)
    (ip : String) :
    ((EnterpriseOTPService.verify_otp master_secret db device_id otp now
        ip).1.valid = false →
      (EnterpriseOTPService.verify_otp master_secret db device_id otp now
        ip).2.devices = db.devices)
    ∧ ((EnterpriseOTPService.verify_otp master_secret db device_id otp now
        ip).1.valid = true →
      (EnterpriseOTPService.verify_otp master_secret db device_id otp now
        ip).2.devices = db.devices.map (fun d =>
          if d.device_id == device_id then
            { d with last_used := some now, usage_count := d.usage_count + 1 }
          else d)) := by
  cases hfind : db.devices.find? (fun d => d.device_id == device_id && d.is_active) with
  | none =>
      constructor
      · intro _
        simp [EnterpriseOTPService.verify_otp, hfind]
      · intro hvalid
        simp [EnterpriseOTPService.verify_otp, hfind] at hvalid
  | some d =>
      by_cases hrate : 10 < EnterpriseOTPService.recent_attempts db device_id now
      · constructor
        · intro _
          simp [EnterpriseOTPService.verify_otp, hfind, hrate]
        · intro hvalid
          simp [EnterpriseOTPService.verify_otp, hfind, hrate] at hvalid
      · cases hv : EnterpriseOTPService._verify_totp
            (EnterpriseOTPService.generate_derived_key master_secret device_id)
            otp now with
        | error e =>
            constructor
            · intro _
              simp [EnterpriseOTPService.verify_otp, hfind, hrate, hv]
            · intro hvalid
              simp [EnterpriseOTPService.verify_otp, hfind, hrate, hv] at hvalid
        | ok b =>
            cases b with
            | false =>
                constructor
                · intro _
                  simp [EnterpriseOTPService.verify_otp, hfind, hrate, hv]
                · intro hvalid
                  simp [EnterpriseOTPService.verify_otp, hfind, hrate, hv] at hvalid
            | true =>
                constructor
                · intro hvalid
                  simp [EnterpriseOTPService.verify_otp, hfind, hrate, hv] at hvalid
                · intro _
                  simp [EnterpriseOTPService.verify_otp, hfind, hrate, hv]

/-- Witness for C9: a successful verification of device `D1` increments
its usage count from 0 to 1 and stamps `last_used = 90`. -/
theorem C9_usage_updated_only_on_success_witness :
    (EnterpriseOTPService.verify_otp [77]
        ⟨[⟨"D1", "u1", "", true, 0, none, 0, none⟩], []⟩ "D1" 762939 90
        "t").2.devices =
      (⟨[⟨"D1", "u1", "", true, 0, none, 0, none⟩], []⟩ :
        EnterpriseOTPService.DB).devices.map (fun d =>
          if d.device_id == "D1" then
            { d with last_used := some 90, usage_count := d.usage_count + 1 }
          else d) :=
  (C9_usage_updated_only_on_success [77]
    ⟨[⟨"D1", "u1", "", true, 0, none, 0, none⟩], []⟩ "D1" 762939 90 "t").2
    (by rfl)

/-- C10: within the first `window` time steps after the epoch
(`floor(now / interval) < window`), the tolerance loop packs a negative
time step, which raises, so `_verify_totp` yields an error for every
secret key and the orchestrator catches it and answers with the generic
verification-failed error, with the store unchanged, even for an active,
registered, non-rate-limited device and regardless of the submitted code. -/
theorem C10_negative_time_step_verification_failed (master_secret : List Nat)
    (db : EnterpriseOTPService.DB) (device_id : String) (otp now : Nat)
    (ip : String) (d : EnterpriseOTPService.Device)
    (hstep : now / settings.otp_interval < settings.otp_window)
    (hfind : db.devices.find? (fun x => x.device_id == device_id && x.is_active)
      = some d)
    (hcount : EnterpriseOTPService.recent_attempts db device_id now ≤ 10) :
    EnterpriseOTPService.verify_otp master_secret db device_id otp now ip =
      ({ valid := false, error := some "Verification failed" }, db)
    ∧ ∀ secret_key : List Nat,
        EnterpriseOTPService._verify_totp secret_key otp now =
          .error "struct.error: argument out of range" := by
  have hts : now / settings.otp_interval = 0 := by
    simp only [settings.otp_interval, settings.otp_window] at hstep ⊢
    omega
  have herr : ∀ secret_key : List Nat,
      EnterpriseOTPService._verify_totp secret_key otp now =
        .error "struct.error: argument out of range" := by
    intro secret_key
    show Server.verify_window secret_key otp settings.otp_digits
      ((now / settings.otp_interval : Nat) : Int)
      (Server.range_offsets settings.otp_window) =
        .error "struct.error: argument out of range"
    rw [hts]
    rfl
  have hif : ¬ (10 < EnterpriseOTPService.recent_attempts db device_id now) :=
    Nat.not_lt.mpr hcount
  refine ⟨?_, herr⟩
  simp [EnterpriseOTPService.verify_otp, hfind, hif, herr]

/-- Witness for C10: an active registered device at `now = 5` (time step
0, window 1); verification answers the generic failure. -/
theorem C10_negative_time_step_verification_failed_witness :
    EnterpriseOTPService.verify_otp [77]
        ⟨[⟨"D1", "u1", "", true, 0, none, 0, none⟩], []⟩ "D1" 762939 5 "t" =
      ({ valid := false, error := some "Verification failed" },
       ⟨[⟨"D1", "u1", "", true, 0, none, 0, none⟩], []⟩)
    ∧ ∀ secret_key : List Nat,
        EnterpriseOTPService._verify_totp secret_key 762939 5 =
          .error "struct.error: argument out of range" :=
  C10_negative_time_step_verification_failed [77]
    ⟨[⟨"D1", "u1", "", true, 0, none, 0, none⟩], []⟩ "D1" 762939 5 "t"
    ⟨"D1", "u1", "", true, 0, none, 0, none⟩ (by decide) (by rfl) (by decide)

/-- C8 fails as stated: starting from a freshly registered device,
deactivating at time 100 sets `deactivated_at = 100`, and deactivating the
same device again at time 200 overwrites the already-set timestamp with
200 - so `deactivated_at` is not set exactly once and an existing value is
overwritten. -/
theorem C8_counterexample :
    ((EnterpriseOTPService.deactivate_device
        (EnterpriseOTPService.register_device [77] ⟨[], []⟩ "D1" "u1" 0).2
        "D1" 100).2.devices.map (fun d => d.deactivated_at) = [some 100])
    ∧ ((EnterpriseOTPService.deactivate_device
        (EnterpriseOTPService.deactivate_device
          (EnterpriseOTPService.register_device [77] ⟨[], []⟩ "D1" "u1" 0).2
          "D1" 100).2 "D1" 200).2.devices.map (fun d => d.deactivated_at)
        = [some 200]) :=
  ⟨by rfl, by rfl⟩

/-- C8 (amended): every successful `deactivate_device` call - including a
call on an already-inactive device - sets `is_active = false` and
`deactivated_at` to the current time on the rows with that id, so the
timestamp is set on every deactivation rather than exactly once and can be
overwritten; and deactivation is terminal: once every row with a given id
is inactive, no operation of the service (`register_device`, `verify_otp`,
`deactivate_device`) ever returns a row with that id to the active
state. -/
theorem C8_deactivation_terminal :
    (∀ (db : EnterpriseOTPService.DB) (id : String) (now : Nat)
      (d : EnterpriseOTPService.Device),
      db.devices.find? (fun x => x.device_id == id) = some d →
      ∀ d2 ∈ (EnterpriseOTPService.deactivate_device db id now).2.devices,
        d2.device_id = id →
        d2.is_active = false ∧ d2.deactivated_at = some now)
    ∧ (∀ (master_secret : List Nat) (db : EnterpriseOTPService.DB)
      (reg_id uid : String) (now : Nat) (j : String)
      (d0 : EnterpriseOTPService.Device),
      d0 ∈ db.devices → d0.device_id = j →
      (∀ d ∈ db.devices, d.device_id = j → d.is_active = false) →
      ∀ d2 ∈ (EnterpriseOTPService.register_device master_secret db reg_id uid
          now).2.devices, d2.device_id = j → d2.is_active = false)
    ∧ (∀ (master_secret : List Nat) (db : EnterpriseOTPService.DB)
      (vid : String) (otp now : Nat) (ip : String) (j : String),
      (∀ d ∈ db.devices, d.device_id = j → d.is_active = false) →
      ∀ d2 ∈ (EnterpriseOTPService.verify_otp master_secret db vid otp now
          ip).2.devices, d2.device_id = j → d2.is_active = false)
    ∧ (∀ (db : EnterpriseOTPService.DB) (id : String) (now : Nat) (j : String),
      (∀ d ∈ db.devices, d.device_id = j → d.is_active = false) →
      ∀ d2 ∈ (EnterpriseOTPService.deactivate_device db id now).2.devices,
        d2.device_id = j → d2.is_active = false) := by
  refine ⟨?_, ?_, ?_, ?_⟩
  · intro db id now d hfind d2 hd2 hid
    simp only [EnterpriseOTPService.deactivate_device, hfind] at hd2
    obtain ⟨d0, hd0, rfl⟩ := List.mem_map.mp hd2
    by_cases h : d0.device_id = id
    · simp [h]
    · simp [h] at hid
  · intro master_secret db reg_id uid now j d0 hd0 hj hin d2 hd2 hid
    cases hf : db.devices.find? (fun d => d.device_id == reg_id) with
    | some dx =>
        simp only [EnterpriseOTPService.register_device, hf] at hd2
        exact hin d2 hd2 hid
    | none =>
        simp only [EnterpriseOTPService.register_device, hf] at hd2
        rw [List.mem_append] at hd2
        cases hd2 with
        | inl hd2 => exact hin d2 hd2 hid
        | inr hd2 =>
            have hne : d0.device_id ≠ reg_id := by
              intro hcontra
              have := List.find?_eq_none.mp hf d0 hd0
              simp [hcontra] at this
            rw [List.mem_singleton] at hd2
            subst hd2
            have hrj : reg_id = j := hid
            exact absurd (hj.trans hrj.symm) hne
  · intro master_secret db vid otp now ip j hin d2 hd2 hid
    cases hfind : db.devices.find? (fun d => d.device_id == vid && d.is_active) with
    | none =>
        simp only [EnterpriseOTPService.verify_otp, hfind] at hd2
        exact hin d2 hd2 hid
    | some d =>
        by_cases hrate : 10 < EnterpriseOTPService.recent_attempts db vid now
        · simp only [EnterpriseOTPService.verify_otp, hfind, if_pos hrate] at hd2
          exact hin d2 hd2 hid
        · cases hv : EnterpriseOTPService._verify_totp
              (EnterpriseOTPService.generate_derived_key master_secret vid)
              otp now with
          | error e =>
              simp only [EnterpriseOTPService.verify_otp, hfind,
                if_neg hrate, hv] at hd2
              exact hin d2 hd2 hid
          | ok b =>
              cases b with
              | false =>
                  simp only [EnterpriseOTPService.verify_otp, hfind,
                    if_neg hrate, hv] at hd2
                  simp only [Bool.false_eq_true, if_false] at hd2
                  exact hin d2 hd2 hid
              | true =>
                  simp only [EnterpriseOTPService.verify_otp, hfind,
                    if_neg hrate, hv, if_true] at hd2
                  obtain ⟨d1, hd1, rfl⟩ := List.mem_map.mp hd2
                  by_cases h : d1.device_id = vid
                  · simp [h] at hid ⊢
                    exact hin d1 hd1 (h.trans hid)
                  · simp [h] at hid ⊢
                    exact hin d1 hd1 hid
  · intro db id now j hin d2 hd2 hid
    cases hf : db.devices.find? (fun d => d.device_id == id) with
    | none =>
        simp only [EnterpriseOTPService.deactivate_device, hf] at hd2
        exact hin d2 hd2 hid
    | some d =>
        simp only [EnterpriseOTPService.deactivate_device, hf] at hd2
        obtain ⟨d1, hd1, rfl⟩ := List.mem_map.mp hd2
        by_cases h : d1.device_id = id
        · simp [h]
        · simp [h] at hid ⊢
          exact hin d1 hd1 hid

/-- Witness for C8: an already-inactive device stays inactive across a
repeated deactivation (which restamps `deactivated_at` to 100), a
re-registration attempt and a verification attempt. -/
theorem C8_deactivation_terminal_witness :
    ((⟨"D1", "u", "h", false, 0, none, 0, some 100⟩ :
        EnterpriseOTPService.Device).is_active = false
      ∧ (⟨"D1", "u", "h", false, 0, none, 0, some 100⟩ :
        EnterpriseOTPService.Device).deactivated_at = some 100)
    ∧ (⟨"D1", "u", "h", false, 0, none, 0, some 50⟩ :
        EnterpriseOTPService.Device).is_active = false
    ∧ (⟨"D1", "u", "h", false, 0, none, 0, some 50⟩ :
        EnterpriseOTPService.Device).is_active = false
    ∧ (⟨"D1", "u", "h", false, 0, none, 0, some 200⟩ :
        EnterpriseOTPService.Device).is_active = false :=
  ⟨C8_deactivation_terminal.1 ⟨[⟨"D1", "u", "h", false, 0, none, 0, some 50⟩], []⟩
      "D1" 100 ⟨"D1", "u", "h", false, 0, none, 0, some 50⟩ (by rfl)
      ⟨"D1", "u", "h", false, 0, none, 0, some 100⟩ (by decide) (by rfl),
   C8_deactivation_terminal.2.1 [77]
      ⟨[⟨"D1", "u", "h", false, 0, none, 0, some 50⟩], []⟩ "D1" "u2" 7 "D1"
      ⟨"D1", "u", "h", false, 0, none, 0, some 50⟩ (by decide) (by rfl)
      (by decide) ⟨"D1", "u", "h", false, 0, none, 0, some 50⟩ (by decide)
      (by rfl),
   C8_deactivation_terminal.2.2.1 [77]
      ⟨[⟨"D1", "u", "h", false, 0, none, 0, some 50⟩], []⟩ "D1" 0 1000 "t"
      "D1" (by decide) ⟨"D1", "u", "h", false, 0, none, 0, some 50⟩
      (by decide) (by rfl),
   C8_deactivation_terminal.2.2.2
      ⟨[⟨"D1", "u", "h", false, 0, none, 0, some 50⟩], []⟩ "D1" 200 "D1"
      (by decide) ⟨"D1", "u", "h", false, 0, none, 0, some 200⟩ (by decide)
      (by rfl)⟩

/-- C7 (amended): with six digits and a 30-second interval, (1) a code
generated at the current time step is accepted for every window with
`window ≤ floor(now / 30)` and `floor(now / 30) + window < 2 ^ 64`; (2)
with window 1, a code generated at step `T` (`3 ≤ T`, `T + 3 < 2 ^ 64`) is
accepted at every time mapping to steps `T - 1` and `T + 1`; and (3) it is
rejected at times mapping to `T - 2` (respectively `T + 2`) provided the
code differs from the codes of the three steps the shifted window
examines - without that proviso rejection can fail, because the truncated
codes of distinct steps can collide (see the counterexample). -/
theorem C7_round_trip_and_window_boundaries :
    (∀ (secret : List Nat) (now window c : Nat),
      window ≤ now / 30 → now / 30 + window < 18446744073709551616 →
      Server._generate_otp secret ((now / 30 : Nat) : Int) 6 = .ok c →
      Server.verify_window secret c 6 ((now / 30 : Nat) : Int)
        (Server.range_offsets window) = .ok true)
    ∧ (∀ (secret : List Nat) (T c now1 now2 : Nat),
      3 ≤ T → T + 3 < 18446744073709551616 →
      Server._generate_otp secret ((T : Nat) : Int) 6 = .ok c →
      now1 / 30 = T - 1 → now2 / 30 = T + 1 →
      EnterpriseOTPService._verify_totp secret c now1 = .ok true
      ∧ EnterpriseOTPService._verify_totp secret c now2 = .ok true)
    ∧ (∀ (secret : List Nat) (T c now1 now2 : Nat),
      3 ≤ T → T + 3 < 18446744073709551616 →
      Server._generate_otp secret ((T : Nat) : Int) 6 = .ok c →
      now1 / 30 = T - 2 → now2 / 30 = T + 2 →
      ((Server._generate_otp secret ((T - 3 : Nat) : Int) 6 ≠ .ok c) →
       (Server._generate_otp secret ((T - 2 : Nat) : Int) 6 ≠ .ok c) →
       (Server._generate_otp secret ((T - 1 : Nat) : Int) 6 ≠ .ok c) →
       EnterpriseOTPService._verify_totp secret c now1 = .ok false)
      ∧ ((Server._generate_otp secret ((T + 1 : Nat) : Int) 6 ≠ .ok c) →
         (Server._generate_otp secret ((T + 2 : Nat) : Int) 6 ≠ .ok c) →
         (Server._generate_otp secret ((T + 3 : Nat) : Int) 6 ≠ .ok c) →
         EnterpriseOTPService._verify_totp secret c now2 = .ok false)) := by
  refine ⟨?_, ?_, ?_⟩
  · intro secret now window c hlo hhi hgen
    have hsafe : ∀ o ∈ Server.range_offsets window,
        0 ≤ ((now / 30 : Nat) : Int) + o ∧
        ((now / 30 : Nat) : Int) + o < 18446744073709551616 := by
      intro o ho
      rw [mem_range_offsets] at ho
      constructor <;> omega
    refine (verify_window_ok_true_iff _ _ _ _ _ hsafe).mpr
      ⟨0, (mem_range_offsets window 0).mpr ⟨by omega, by omega⟩, ?_⟩
    rw [add_zero]
    exact hgen
  · intro secret T c now1 now2 hT hT64 hgen hnow1 hnow2
    constructor
    · rw [EnterpriseOTPService._verify_totp]
      simp only [settings.otp_digits, settings.otp_interval, settings.otp_window]
      have hsafe : ∀ o ∈ Server.range_offsets 1,
          0 ≤ ((now1 / 30 : Nat) : Int) + o ∧
          ((now1 / 30 : Nat) : Int) + o < 18446744073709551616 := by
        intro o ho
        rw [mem_range_offsets] at ho
        rw [hnow1]
        constructor <;> omega
      refine (verify_window_ok_true_iff _ _ _ _ _ hsafe).mpr
        ⟨1, (mem_range_offsets 1 1).mpr ⟨by omega, by omega⟩, ?_⟩
      have hstep : ((now1 / 30 : Nat) : Int) + 1 = ((T : Nat) : Int) := by
        rw [hnow1]
        omega
      rw [hstep]
      exact hgen
    · rw [EnterpriseOTPService._verify_totp]
      simp only [settings.otp_digits, settings.otp_interval, settings.otp_window]
      have hsafe : ∀ o ∈ Server.range_offsets 1,
          0 ≤ ((now2 / 30 : Nat) : Int) + o ∧
          ((now2 / 30 : Nat) : Int) + o < 18446744073709551616 := by
        intro o ho
        rw [mem_range_offsets] at ho
        rw [hnow2]
        constructor <;> omega
      refine (verify_window_ok_true_iff _ _ _ _ _ hsafe).mpr
        ⟨-1, (mem_range_offsets 1 (-1)).mpr ⟨by omega, by omega⟩, ?_⟩
      have hstep : ((now2 / 30 : Nat) : Int) + -1 = ((T : Nat) : Int) := by
        rw [hnow2]
        omega
      rw [hstep]
      exact hgen
  · intro secret T c now1 now2 hT hT64 hgen hnow1 hnow2
    constructor
    · intro h3 h2 h1
      rw [EnterpriseOTPService._verify_totp]
      simp only [settings.otp_digits, settings.otp_interval, settings.otp_window]
      have hsafe : ∀ o ∈ Server.range_offsets 1,
          0 ≤ ((now1 / 30 : Nat) : Int) + o ∧
          ((now1 / 30 : Nat) : Int) + o < 18446744073709551616 := by
        intro o ho
        rw [mem_range_offsets] at ho
        rw [hnow1]
        constructor <;> omega
      refine (verify_window_ok_false_iff _ _ _ _ _ hsafe).mpr ?_
      intro o ho
      rw [mem_range_offsets] at ho
      obtain ⟨hol, hor⟩ := ho
      interval_cases o
      · have hstep : ((now1 / 30 : Nat) : Int) + -1 = ((T - 3 : Nat) : Int) := by
          rw [hnow1]
          omega
        rw [hstep]
        exact h3
      · have hstep : ((now1 / 30 : Nat) : Int) + 0 = ((T - 2 : Nat) : Int) := by
          rw [hnow1]
          omega
        rw [hstep]
        exact h2
      · have hstep : ((now1 / 30 : Nat) : Int) + 1 = ((T - 1 : Nat) : Int) := by
          rw [hnow1]
          omega
        rw [hstep]
        exact h1
    · intro h1 h2 h3
      rw [EnterpriseOTPService._verify_totp]
      simp only [settings.otp_digits, settings.otp_interval, settings.otp_window]
      have hsafe : ∀ o ∈ Server.range_offsets 1,
          0 ≤ ((now2 / 30 : Nat) : Int) + o ∧
          ((now2 / 30 : Nat) : Int) + o < 18446744073709551616 := by
        intro o ho
        rw [mem_range_offsets] at ho
        rw [hnow2]
        constructor <;> omega
      refine (verify_window_ok_false_iff _ _ _ _ _ hsafe).mpr ?_
      intro o ho
      rw [mem_range_offsets] at ho
      obtain ⟨hol, hor⟩ := ho
      interval_cases o
      · have hstep : ((now2 / 30 : Nat) : Int) + -1 = ((T + 1 : Nat) : Int) := by
          rw [hnow2]
          omega
        rw [hstep]
        exact h1
      · have hstep : ((now2 / 30 : Nat) : Int) + 0 = ((T + 2 : Nat) : Int) := by
          rw [hnow2]
          omega
        rw [hstep]
        exact h2
      · have hstep : ((now2 / 30 : Nat) : Int) + 1 = ((T + 3 : Nat) : Int) := by
          rw [hnow2]
          omega
        rw [hstep]
        exact h3

/-- Witness for C7 with secret `b"k"` and `T = 3`: the code 93276 of step
3 is accepted at `now = 90` (step 3), at `now = 65` (step 2) and at
`now = 125` (step 4), and rejected at `now = 35` (step 1) and at
`now = 155` (step 5), the codes of the neighbouring steps being
different. -/
theorem C7_round_trip_and_window_boundaries_witness :
    Server.verify_window [107] 93276 6 (((90 : Nat) / 30 : Nat) : Int)
        (Server.range_offsets 1) = .ok true
    ∧ (EnterpriseOTPService._verify_totp [107] 93276 65 = .ok true
       ∧ EnterpriseOTPService._verify_totp [107] 93276 125 = .ok true)
    ∧ (EnterpriseOTPService._verify_totp [107] 93276 35 = .ok false
       ∧ EnterpriseOTPService._verify_totp [107] 93276 155 = .ok false) :=
  ⟨C7_round_trip_and_window_boundaries.1 [107] 90 1 93276 (by decide)
      (by decide) (by rfl),
   C7_round_trip_and_window_boundaries.2.1 [107] 3 93276 65 125 (by decide)
      (by decide) (by rfl) (by decide) (by decide),
   ⟨(C7_round_trip_and_window_boundaries.2.2 [107] 3 93276 35 155 (by decide)
      (by decide) (by rfl) (by decide) (by decide)).1 (by decide) (by decide)
      (by decide),
    (C7_round_trip_and_window_boundaries.2.2 [107] 3 93276 35 155 (by decide)
      (by decide) (by rfl) (by decide) (by decide)).2 (by decide) (by decide)
      (by decide)⟩⟩

/-- C7 fails as stated: with secret `b"k"`, the truncated code of step
450810 equals the truncated code of step 450813, so at `now = 13524365`
(which maps to step 450812 = T + 2) verification accepts the code
generated at step T = 450810, although the claim says any time mapping to
`T + 2` must reject it. -/
theorem C7_counterexample :
    Server._generate_otp [107] ((450810 : Nat) : Int) 6 = .ok 562218
    ∧ Server._generate_otp [107] ((450813 : Nat) : Int) 6 = .ok 562218
    ∧ (13524365 : Nat) / 30 = 450810 + 2
    ∧ EnterpriseOTPService._verify_totp [107] 562218 13524365 = .ok true :=
  ⟨by rfl, by rfl, by rfl, by rfl⟩
